import Mathlib

/-!
Verification development for the Beam-Analyzer repository.

The analysis engine under scrutiny is `analyzeBeam` in
`src/Python/BeamAnalyzer.jsx` (lines 254-325), plus the input-validation
layer of `src/Web/beam_analysis_engine.js` (`addSupport`, `addLoad`,
`analyzeBeam`).  The jsx engine is plain JavaScript acting on numbers and
strings, so the embedding models the JavaScript value semantics that the
code actually exercises:

* JavaScript numbers are modelled by `JSNum`: an exact rational for every
  finite double (float rounding is idealized away, which is the standard
  shallow-embedding convention; every property claimed of the code is an
  exact identity at this level), plus the special values `Infinity`,
  `-Infinity` and `NaN` with their IEEE propagation rules.  Signed zero is
  not modelled; the only zero denominators that arise in the code are
  produced as `x - x`, which is `+0` in JavaScript, and the definitions
  below follow the `+0` behaviour.
* JavaScript values flowing through the field-generation loop are modelled
  by `JSVal`: a number or a string.  This matters because the loop stores
  each sample's `shear`/`moment` with `.toFixed(2)` - i.e. as strings -
  and then reads those strings back into the arithmetic of the next
  sample, where the JavaScript `+` operator concatenates.
* Calling `.toFixed` on a string value throws a `TypeError`; the loop is
  therefore modelled in the `Except JSErr` monad.
-/

/-- A JavaScript number: a finite value (idealized to an exact rational),
positive infinity, negative infinity, or NaN. -/
inductive JSNum where
  | fin (q : ℚ)
  | inf
  | ninf
  | nan
deriving DecidableEq, Repr

/-- JavaScript division of two finite numbers (`a / b` with `b` possibly
`+0`): division by zero yields `Infinity`, `-Infinity` or `NaN` according
to the sign of the numerator, never an error. -/
def qDivJS (a b : ℚ) : JSNum :=
  if b = 0 then (if 0 < a then .inf else if a < 0 then .ninf else .nan)
  else .fin (a / b)

/-- JavaScript addition on numbers. -/
def numAdd : JSNum → JSNum → JSNum
  | .nan, _ => .nan
  | _, .nan => .nan
  | .inf, .inf => .inf
  | .inf, .ninf => .nan
  | .ninf, .inf => .nan
  | .ninf, .ninf => .ninf
  | .inf, .fin _ => .inf
  | .fin _, .inf => .inf
  | .ninf, .fin _ => .ninf
  | .fin _, .ninf => .ninf
  | .fin a, .fin b => .fin (a + b)

/-- JavaScript subtraction on numbers. -/
def numSub : JSNum → JSNum → JSNum
  | .nan, _ => .nan
  | _, .nan => .nan
  | .inf, .inf => .nan
  | .inf, .ninf => .inf
  | .ninf, .inf => .ninf
  | .ninf, .ninf => .nan
  | .inf, .fin _ => .inf
  | .fin _, .inf => .ninf
  | .ninf, .fin _ => .ninf
  | .fin _, .ninf => .inf
  | .fin a, .fin b => .fin (a - b)

/-- JavaScript multiplication on numbers (`Infinity * 0` is `NaN`). -/
def numMul : JSNum → JSNum → JSNum
  | .nan, _ => .nan
  | _, .nan => .nan
  | .inf, .inf => .inf
  | .inf, .ninf => .ninf
  | .ninf, .inf => .ninf
  | .ninf, .ninf => .inf
  | .inf, .fin b => if 0 < b then .inf else if b < 0 then .ninf else .nan
  | .ninf, .fin b => if 0 < b then .ninf else if b < 0 then .inf else .nan
  | .fin a, .inf => if 0 < a then .inf else if a < 0 then .ninf else .nan
  | .fin a, .ninf => if 0 < a then .ninf else if a < 0 then .inf else .nan
  | .fin a, .fin b => .fin (a * b)

/-- JavaScript division on numbers. -/
def numDiv : JSNum → JSNum → JSNum
  | .nan, _ => .nan
  | _, .nan => .nan
  | .inf, .inf => .nan
  | .inf, .ninf => .nan
  | .ninf, .inf => .nan
  | .ninf, .ninf => .nan
  | .inf, .fin b => if 0 ≤ b then .inf else .ninf
  | .ninf, .fin b => if 0 ≤ b then .ninf else .inf
  | .fin _, .inf => .fin 0
  | .fin _, .ninf => .fin 0
  | .fin a, .fin b => qDivJS a b

/-- JavaScript `Math.abs` on numbers. -/
def numAbs : JSNum → JSNum
  | .nan => .nan
  | .inf => .inf
  | .ninf => .inf
  | .fin a => .fin |a|

/-- Decimal rendering used by `Number.prototype.toFixed(d)`: the value is
rounded to `d` fractional digits (nearest, ties towards the larger
result, per the ECMAScript `toFixed` algorithm) and printed with exactly
`d` digits after the decimal point. -/
def qToFixed (q : ℚ) (d : ℕ) : String :=
  let scaled : ℤ := Int.floor (q * (10 : ℚ) ^ d + 1 / 2)
  let sign := if q < 0 then "-" else ""
  let m := scaled.natAbs
  let base := 10 ^ d
  let fs := toString (m % base)
  sign ++ toString (m / base) ++ "." ++
    String.mk (List.replicate (d - fs.length) (Char.ofNat 48)) ++ fs

/-- `toFixed` on a JavaScript number, including the special values. -/
def numToFixed (x : JSNum) (d : ℕ) : String :=
  match x with
  | .nan => "NaN"
  | .inf => "Infinity"
  | .ninf => "-Infinity"
  | .fin q => qToFixed q d

/-- Stand-in for the JavaScript number-to-string conversion used by string
concatenation.  Real JavaScript prints the shortest decimal that
round-trips the double; here a finite value is printed as a 20-digit
fixed-point decimal.  Nothing proved below depends on the rendered digits,
only on the result being a string. -/
def jsNumToString (x : JSNum) : String :=
  match x with
  | .nan => "NaN"
  | .inf => "Infinity"
  | .ninf => "-Infinity"
  | .fin q => qToFixed q 20

/-- A JavaScript value as it flows through the analysis loop: a number or
a string. -/
inductive JSVal where
  | n (x : JSNum)
  | s (str : String)
deriving DecidableEq, Repr

/-- JavaScript `ToString` on the values occurring here. -/
def jsToString : JSVal → String
  | .s str => str
  | .n x => jsNumToString x

/-- Parse an unsigned decimal digit string into a natural number;
fails on any non-digit character. -/
def parseNatDigits : List Char → ℕ → Option ℕ
  | [], acc => some acc
  | c :: rest, acc =>
      if c.isDigit then parseNatDigits rest (acc * 10 + (c.toNat - 48))
      else none

/-- Parse an unsigned decimal literal (`digits`, `digits.digits`,
`.digits`, `digits.`).  Restriction of the ECMAScript string numeric
grammar to the forms that can arise here (no exponents, no hex). -/
def parseUnsigned (cs : List Char) : Option ℚ :=
  match cs.splitOn (Char.ofNat 46) with
  | [ip] =>
      if ip.isEmpty then none
      else (parseNatDigits ip 0).map (fun n => (n : ℚ))
  | [ip, fp] =>
      if ip.isEmpty ∧ fp.isEmpty then none
      else
        match parseNatDigits ip 0, parseNatDigits fp 0 with
        | some n, some f => some ((n : ℚ) + (f : ℚ) / (10 : ℚ) ^ fp.length)
        | _, _ => none
  | _ => none

/-- JavaScript `ToNumber` on a string: the empty string is `0`, a decimal
literal (optionally signed) parses to its value, anything else is `NaN`.
Leading/trailing whitespace and exponent/hex forms are not modelled; no
string built by the code below uses them. -/
def parseDecimal (str : String) : JSNum :=
  match str.toList with
  | [] => .fin 0
  | c :: rest =>
      if c = Char.ofNat 45 then
        match parseUnsigned rest with
        | some q => .fin (-q)
        | none => .nan
      else if c = Char.ofNat 43 then
        match parseUnsigned rest with
        | some q => .fin q
        | none => .nan
      else
        match parseUnsigned (c :: rest) with
        | some q => .fin q
        | none => .nan

/-- JavaScript `ToNumber` on a value. -/
def jsToNumber : JSVal → JSNum
  | .n x => x
  | .s str =>
      if str = "Infinity" then .inf
      else if str = "-Infinity" then .ninf
      else parseDecimal str

/-- JavaScript truthiness: `0`, `NaN` and the empty string are falsy. -/
def jsTruthy : JSVal → Bool
  | .n (.fin q) => decide (q ≠ 0)
  | .n .nan => false
  | .n .inf => true
  | .n .ninf => true
  | .s str => decide (str ≠ "")

/-- JavaScript `a || b`: returns `a` when truthy, else `b`. -/
def jsOr (v w : JSVal) : JSVal :=
  if jsTruthy v then v else w

/-- JavaScript `+` on values: if either operand is a string the operands
are concatenated as strings, otherwise added as numbers. -/
def jsAdd : JSVal → JSVal → JSVal
  | .s a, b => .s (a ++ jsToString b)
  | a, .s b => .s (jsToString a ++ b)
  | .n x, .n y => .n (numAdd x y)

/-- JavaScript `*` on values: both operands are coerced with `ToNumber`. -/
def jsMul (v w : JSVal) : JSVal :=
  .n (numMul (jsToNumber v) (jsToNumber w))

/-- JavaScript `/` on values: both operands are coerced with `ToNumber`. -/
def jsDiv (v w : JSVal) : JSVal :=
  .n (numDiv (jsToNumber v) (jsToNumber w))

/-- The one runtime error the modelled code can throw: calling a missing
method (here `.toFixed` on a string) raises a `TypeError`. -/
inductive JSErr where
  | typeError
deriving DecidableEq, Repr

/-- Evaluation of `v.toFixed(d)`: defined on numbers; on a string the
method does not exist and a `TypeError` is thrown. -/
def callToFixed (v : JSVal) (d : ℕ) : Except JSErr String :=
  match v with
  | .n x => .ok (numToFixed x d)
  | .s _ => .error .typeError

/-!
Data model of the jsx engine (`src/Python/BeamAnalyzer.jsx`).

A support is `{ id, position, type }`; `id` plays no role in the analysis
and is omitted.  A load is `{ id, type, position, magnitude }`; every load
the component ever constructs has `type: 'concentrated'` (the separate
`varyingLoads` state is never read by `analyzeBeam`), but `analyzeBeam`
tests the tag, so the tag is kept.  All numeric inputs come from
`parseFloat(...) || 0` and are therefore finite; they are modelled as `ℚ`.
-/

/-- A support of the jsx engine: position and kind tag. -/
structure JSupport where
  position : ℚ
  stype : String
deriving DecidableEq, Repr

/-- A load of the jsx engine: kind tag, position and magnitude
(positive = downward). -/
structure JLoad where
  ltype : String
  position : ℚ
  magnitude : ℚ
deriving DecidableEq, Repr

/-- Lines 265-273 of `BeamAnalyzer.jsx`: `totalLoad` accumulated over the
loads, counting only those tagged `concentrated`. -/
def totalConcentrated (loads : List JLoad) : ℚ :=
  loads.foldl (fun acc l => if l.ltype = "concentrated" then acc + l.magnitude else acc) 0

/-- Lines 265-273 of `BeamAnalyzer.jsx`: `momentAboutSupport1` accumulated
over the loads, counting only those tagged `concentrated`. -/
def momentAbout (loads : List JLoad) (p : ℚ) : ℚ :=
  loads.foldl
    (fun acc l => if l.ltype = "concentrated" then acc + l.magnitude * (l.position - p) else acc) 0

/-- Lines 261-276 of `BeamAnalyzer.jsx`: the reaction solver for the first
two supports.  `L = support2.position - support1.position`,
`R2 = momentAboutSupport1 / L` (JavaScript division - no zero-span guard),
`R1 = totalLoad - R2`.  Returns `(R1, R2)`. -/
def solveReactions (s1 s2 : JSupport) (loads : List JLoad) : JSNum × JSNum :=
  let L := s2.position - s1.position
  let totalLoad := totalConcentrated loads
  let mA := momentAbout loads s1.position
  let R2 := qDivJS mA L
  let R1 := numSub (.fin totalLoad) R2
  (R1, R2)

/-- Line 260 of `BeamAnalyzer.jsx`: the reaction step runs only when
`supports.length >= 2`, and then uses exactly `supports[0]` and
`supports[1]`. -/
def analyzeReactions (supports : List JSupport) (loads : List JLoad) :
    Option (JSNum × JSNum) :=
  match supports with
  | s1 :: s2 :: _ => some (solveReactions s1 s2 loads)
  | _ => none

/-- Line 255 of `BeamAnalyzer.jsx`: `numPoints = 100`. -/
def numPoints : ℕ := 100

/-- Line 256 of `BeamAnalyzer.jsx`: `dx = beamLength / (numPoints - 1)`. -/
def dxOf (bl : ℚ) : ℚ := bl / ((numPoints : ℚ) - 1)

/-- Line 285 of `BeamAnalyzer.jsx`: the `i`-th sample abscissa `x = i * dx`. -/
def sampleX (bl : ℚ) (i : ℕ) : ℚ := (i : ℚ) * dxOf bl

/-- Lines 286-303 of `BeamAnalyzer.jsx`: shear at abscissa `x` by
superposition, in source order - start from `0`, add `R1` when
`x >= support1.position`, subtract every concentrated load with
`x >= load.position`, add `R2` when `x >= support2.position`. -/
def shearAt (s1 s2 : JSupport) (loads : List JLoad) (R1 R2 : JSNum) (x : ℚ) : JSNum :=
  let v1 := if s1.position ≤ x then numAdd (.fin 0) R1 else .fin 0
  let v2 := loads.foldl
    (fun acc l =>
      if l.ltype = "concentrated" ∧ l.position ≤ x then numSub acc (.fin l.magnitude) else acc)
    v1
  if s2.position ≤ x then numAdd v2 R2 else v2

/-- One record pushed onto `data` (lines 312-317 of `BeamAnalyzer.jsx`).
Every field is produced by `toFixed`, i.e. is a string. -/
structure DataEntry where
  x : String
  shear : String
  moment : String
  deflection : String
deriving DecidableEq, Repr

/-- Read a field of `data[i-1]` and apply `|| 0` (lines 308-309):
`data[i-1]?.f || 0` is the stored string when the entry exists and the
string is truthy, and the number `0` otherwise (also when `data[i-1]` is
`undefined`, since `undefined?.f` is `undefined`, which is falsy).
`data` is carried most-recent-first, so `data[i-1]` is the head. -/
def prevField (data : List DataEntry) (f : DataEntry → String) : JSVal :=
  match data with
  | [] => .n (.fin 0)
  | e :: _ => jsOr (.s (f e)) (.n (.fin 0))

/-- Context threaded through the sampling loop: the inputs of
`analyzeBeam` plus the two reactions computed before the loop. -/
structure LoopCtx where
  piV : ℚ
  sinFn : ℚ → ℚ
  beamLength : ℚ
  s1 : JSupport
  s2 : JSupport
  loads : List JLoad
  R1 : JSNum
  R2 : JSNum

/-- Lines 307-310 of `BeamAnalyzer.jsx`: the moment value at iteration
`i`.  `moment` starts at the number `0`; for `i > 0` it is reassigned to
`(data[i-1]?.moment || 0) + (prevShear + shear) * dx / 2` where
`prevShear = data[i-1]?.shear || 0`.  Because the stored fields are
strings, the outer `+` concatenates and the result is a string. -/
def momentValAt (ctx : LoopCtx) (i : ℕ) (shear : JSNum) (data : List DataEntry) : JSVal :=
  if i = 0 then .n (.fin 0)
  else
    let prevShear := prevField data DataEntry.shear
    let halfTrap :=
      jsDiv (jsMul (jsAdd prevShear (.n shear)) (.n (.fin (dxOf ctx.beamLength))))
        (.n (.fin 2))
    jsAdd (prevField data DataEntry.moment) halfTrap

/-- `Math.sin` applied to a JavaScript number.  The sine of a double is
modelled by an abstract parameter `sinFn : ℚ → ℚ` (every theorem below
holds for all `sinFn`); `Math.sin` of a non-finite argument is `NaN`. -/
def sinJ (sinFn : ℚ → ℚ) : JSNum → JSNum
  | .fin q => .fin (sinFn q)
  | _ => .nan

/-- Line 316 of `BeamAnalyzer.jsx`: the deflection estimator expression
`Math.sin(Math.PI * x / beamLength) * Math.abs(moment) / 1000`, where
`Math.PI` is the parameter `piV` and `moment` is the (possibly string)
loop value, coerced by `Math.abs`. -/
def deflectionExpr (piV : ℚ) (sinFn : ℚ → ℚ) (bl x : ℚ) (momentV : JSVal) : JSNum :=
  numDiv
    (numMul (sinJ sinFn (numDiv (numMul (.fin piV) (.fin x)) (.fin bl)))
      (numAbs (jsToNumber momentV)))
    (.fin 1000)

/-- One iteration of the sampling loop (lines 284-318): compute `x`,
`shear` and `moment`, then build the pushed record.  The `x`, `shear` and
`deflection` fields call `toFixed` on numbers and cannot throw; the
`moment` field calls `toFixed` on the loop's moment value, which throws a
`TypeError` whenever that value is a string. -/
def mkEntry (ctx : LoopCtx) (i : ℕ) (data : List DataEntry) : Except JSErr DataEntry :=
  let x := sampleX ctx.beamLength i
  let shear := shearAt ctx.s1 ctx.s2 ctx.loads ctx.R1 ctx.R2 x
  let momentV := momentValAt ctx i shear data
  match callToFixed momentV 2 with
  | .error e => .error e
  | .ok ms =>
      .ok ⟨numToFixed (.fin x) 2, numToFixed shear 2, ms,
        numToFixed (deflectionExpr ctx.piV ctx.sinFn ctx.beamLength x momentV) 4⟩

/-- The sampling loop `for (let i = 0; i < numPoints; i++)`, with `steps`
iterations remaining and `data` carried most-recent-first; a thrown
`TypeError` aborts the whole loop. -/
def runLoop (ctx : LoopCtx) : ℕ → ℕ → List DataEntry → Except JSErr (List DataEntry)
  | 0, _, data => .ok data.reverse
  | steps + 1, i, data =>
      match mkEntry ctx i data with
      | .error e => .error e
      | .ok entry => runLoop ctx steps (i + 1) (entry :: data)

/-- Lines 254-325 of `BeamAnalyzer.jsx`: the full `analyzeBeam`
computation of the `data` array.  When fewer than two supports are given
the guarded block is skipped and `data` stays empty; otherwise the
reactions are computed from the first two supports and the 100-sample
loop runs. -/
def jsAnalyze (piV : ℚ) (sinFn : ℚ → ℚ) (bl : ℚ) (supports : List JSupport)
    (loads : List JLoad) : Except JSErr (List DataEntry) :=
  match supports with
  | s1 :: s2 :: _ =>
      let R := solveReactions s1 s2 loads
      runLoop ⟨piV, sinFn, bl, s1, s2, loads, R.1, R.2⟩ numPoints 0 []
  | _ => .ok []

/-!
Specification-side definition used to settle the deflection-estimator
claim by comparison with the code-side `deflectionExpr`.
-/

/-- The spec's description of the deflection shortcut (spec §9): a sine
function of position scaled by the local moment magnitude and a constant
factor - no elastic modulus, no moment of inertia, no boundary-condition
double integration enters. -/
def specSineDeflection (piV : ℚ) (sinFn : ℚ → ℚ) (bl x m : ℚ) : ℚ :=
  sinFn (piV * x / bl) * |m| * (1 / 1000)

/-!
Distributed-load field sweep, modelled from the spec.

The repository's distributed-load handling lives in the Python engine
(`beam_analysis.py`, referenced by `src/README.md`), which is not under
`src/`; the jsx sweep handles concentrated loads only.  The definitions
below are therefore modelled from the spec wording (§3, §4.3).
-/

/-- Modelled from the spec: a uniformly varying load of the missing
Python engine - `start_pos < end_pos`, endpoint intensities (force per
unit length), linear in between (spec §3). -/
structure VLoad where
  startPos : ℚ
  endPos : ℚ
  startIntensity : ℚ
  endIntensity : ℚ
deriving DecidableEq, Repr

/-- Modelled from the spec: the linear intensity function of a uniformly
varying load at abscissa `t` (spec §3). -/
def intensityAt (d : VLoad) (t : ℚ) : ℚ :=
  d.startIntensity +
    (d.endIntensity - d.startIntensity) * (t - d.startPos) / (d.endPos - d.startPos)

/-- Modelled from the spec: the part of a distributed load already swept
at abscissa `x` - the integral of its intensity over
`[start_pos, min(x, end_pos)]`, zero before the load starts (spec §4.3).
For a linear intensity the trapezoid value is the exact integral. -/
def sweptResultant (d : VLoad) (x : ℚ) : ℚ :=
  if x ≤ d.startPos then 0
  else
    let u := min x d.endPos
    (intensityAt d d.startPos + intensityAt d u) / 2 * (u - d.startPos)

/-- The exact integral of the linear intensity of `d` over `[a, b]`,
written through the antiderivative
`t ↦ w1 (t - s) + slope (t - s)^2 / 2`. -/
def linearIntegral (d : VLoad) (a b : ℚ) : ℚ :=
  d.startIntensity * (b - a) +
    (d.endIntensity - d.startIntensity) / (d.endPos - d.startPos) *
      (((b - d.startPos) ^ 2 - (a - d.startPos) ^ 2) / 2)

/-- Modelled from the spec: shear at abscissa `x` by superposition (spec
§4.3) - step contributions of the reactions (position, value) and of the
concentrated loads (position, magnitude), and for every distributed load
the partial swept resultant, subtracted. -/
def specShearAt (reactions pointLoads : List (ℚ × ℚ)) (dloads : List VLoad) (x : ℚ) : ℚ :=
  (reactions.map (fun r => if r.1 ≤ x then r.2 else 0)).sum
    - (pointLoads.map (fun l => if l.1 ≤ x then l.2 else 0)).sum
    - (dloads.map (fun d => sweptResultant d x)).sum

/-!
Validation layer of the web front end (`src/Web/beam_analysis_engine.js`).
Numeric form fields are read with `parseFloat`; a field that parses to
`NaN` is modelled as `none`.
-/

/-- Lines 142-148 of `beam_analysis_engine.js` (`addSupport`): a support
is rejected when its position is `NaN`, negative, or beyond the beam
length. -/
def addSupportAccepted (position : Option ℚ) (beamLength : ℚ) : Bool :=
  match position with
  | none => false
  | some p => decide (0 ≤ p ∧ p ≤ beamLength)

/-- A load request as read from the form inputs of
`beam_analysis_engine.js` (lines 248-287). -/
inductive LoadRequest where
  | concentrated (position magnitude : Option ℚ)
  | distributed (startPos endPos intensity : Option ℚ)
  | varying (startPos endPos startIntensity endIntensity : Option ℚ)
deriving DecidableEq, Repr

/-- Lines 248-287 of `beam_analysis_engine.js` (`addLoad`): a concentrated
load is rejected only when a field is `NaN` - its position is never
compared against the beam bounds; a distributed or varying load is
rejected when a field is `NaN` or `startPos >= endPos` - again with no
beam-bounds check. -/
def addLoadAccepted : LoadRequest → Bool
  | .concentrated p m => p.isSome && m.isSome
  | .distributed sp ep ip =>
      match sp, ep, ip with
      | some a, some b, some _ => decide (a < b)
      | _, _, _ => false
  | .varying sp ep si ei =>
      match sp, ep, si, ei with
      | some a, some b, some _, some _ => decide (a < b)
      | _, _, _, _ => false

/-- Lines 371-380 of `beam_analysis_engine.js` (`analyzeBeam`): the
analysis request is sent only when at least two supports and at least one
load are present. -/
def analyzeGate (numSupports numLoads : ℕ) : Bool :=
  decide (2 ≤ numSupports) && decide (numLoads ≠ 0)

/-!
Helper lemmas.
-/

/-- A `toFixed` rendering of a finite number always contains a decimal
point and is therefore a non-empty string. -/
theorem qToFixed_ne_empty (q : ℚ) (d : ℕ) : qToFixed q d ≠ "" := by
  unfold qToFixed
  intro h
  have h2 := congrArg String.length h
  simp only [String.length_append] at h2
  rw [show ("." : String).length = 1 from rfl, show ("" : String).length = 0 from rfl] at h2
  omega

/-- A `toFixed` rendering is never the empty string. -/
theorem numToFixed_ne_empty (x : JSNum) (d : ℕ) : numToFixed x d ≠ "" := by
  cases x with
  | fin q => exact qToFixed_ne_empty q d
  | inf => show ("Infinity" : String) ≠ ""; decide
  | ninf => show ("-Infinity" : String) ≠ ""; decide
  | nan => show ("NaN" : String) ≠ ""; decide

/-- A non-empty string is truthy. -/
theorem jsTruthy_of_ne_empty (m : String) (he : m ≠ "") : jsTruthy (.s m) = true :=
  decide_eq_true he

/-- JavaScript `+` with a string on the left concatenates. -/
theorem jsAdd_str_left (a : String) (v : JSVal) :
    jsAdd (.s a) v = .s (a ++ jsToString v) := by
  cases v <;> rfl

/-- The first loop iteration succeeds: `moment` is still the number `0`,
so every field of the pushed record is a `toFixed` string. -/
theorem mkEntry_zero (ctx : LoopCtx) (data : List DataEntry) :
    mkEntry ctx 0 data = .ok
      ⟨numToFixed (.fin (sampleX ctx.beamLength 0)) 2,
       numToFixed (shearAt ctx.s1 ctx.s2 ctx.loads ctx.R1 ctx.R2 (sampleX ctx.beamLength 0)) 2,
       numToFixed (.fin 0) 2,
       numToFixed (deflectionExpr ctx.piV ctx.sinFn ctx.beamLength (sampleX ctx.beamLength 0)
         (.n (.fin 0))) 4⟩ := rfl

/-- Every later iteration throws: `data[i-1].moment` is a non-empty
string, so the moment update concatenates and `moment.toFixed(2)` is a
method call on a string. -/
theorem mkEntry_pos_error (ctx : LoopCtx) (i : ℕ) (hi : ¬ i = 0) (e : DataEntry)
    (data : List DataEntry) (he : e.moment ≠ "") :
    mkEntry ctx i (e :: data) = .error .typeError := by
  have hm : jsOr (.s e.moment) (.n (.fin 0)) = .s e.moment := by
    simp [jsOr, jsTruthy_of_ne_empty e.moment he]
  simp only [mkEntry, momentValAt, prevField, if_neg hi, hm, jsAdd_str_left]
  rfl

/-- Any run of the sampling loop of two or more iterations aborts with a
`TypeError` at the second iteration. -/
theorem runLoop_crashes (ctx : LoopCtx) (steps : ℕ) :
    runLoop ctx (steps + 2) 0 [] = .error .typeError := by
  simp only [runLoop, mkEntry_zero]
  rw [mkEntry_pos_error ctx 1 (by omega) _ _ (numToFixed_ne_empty (.fin 0) 2)]

/-- With at least two supports, `analyzeBeam` always throws a `TypeError`
while assembling the second sample, for every input. -/
theorem jsAnalyze_crashes (piV : ℚ) (sinFn : ℚ → ℚ) (bl : ℚ) (s1 s2 : JSupport)
    (rest : List JSupport) (loads : List JLoad) :
    jsAnalyze piV sinFn bl (s1 :: s2 :: rest) loads = .error JSErr.typeError :=
  runLoop_crashes ⟨piV, sinFn, bl, s1, s2, loads,
    (solveReactions s1 s2 loads).1, (solveReactions s1 s2 loads).2⟩ 98

/-- The `totalLoad` fold, over loads that are all concentrated, from any
accumulator. -/
theorem totalConcentrated_foldl (loads : List JLoad) :
    (∀ l ∈ loads, l.ltype = "concentrated") → ∀ a : ℚ,
      List.foldl (fun acc l => if l.ltype = "concentrated" then acc + l.magnitude else acc)
          a loads
        = a + (loads.map JLoad.magnitude).sum := by
  induction loads with
  | nil => intro _ a; simp
  | cons l ls ih =>
      intro h a
      simp only [List.foldl_cons, List.map_cons, List.sum_cons]
      rw [if_pos (h l (List.mem_cons_self l ls)),
        ih (fun m hm => h m (List.mem_cons_of_mem l hm))]
      ring

/-- For an all-concentrated load list, `totalLoad` is the sum of the
magnitudes. -/
theorem totalConcentrated_eq_sum (loads : List JLoad)
    (h : ∀ l ∈ loads, l.ltype = "concentrated") :
    totalConcentrated loads = (loads.map JLoad.magnitude).sum := by
  have := totalConcentrated_foldl loads h 0
  simpa [totalConcentrated] using this

/-- The shear fold over loads that are all concentrated and all switched
on at `x`, from a finite accumulator. -/
theorem shear_foldl_fin (x : ℚ) (loads : List JLoad) :
    (∀ l ∈ loads, l.ltype = "concentrated" ∧ l.position ≤ x) → ∀ c : ℚ,
      List.foldl
          (fun acc l =>
            if l.ltype = "concentrated" ∧ l.position ≤ x then numSub acc (.fin l.magnitude)
            else acc)
          (JSNum.fin c) loads
        = .fin (c - (loads.map JLoad.magnitude).sum) := by
  induction loads with
  | nil => intro _ c; simp
  | cons l ls ih =>
      intro h c
      simp only [List.foldl_cons, List.map_cons, List.sum_cons]
      rw [if_pos (h l (List.mem_cons_self l ls))]
      show List.foldl _ (JSNum.fin (c - l.magnitude)) ls = _
      rw [ih (fun m hm => h m (List.mem_cons_of_mem l hm))]
      congr 1
      ring

/-!
Claim theorems.
-/

/-- C1.  For the scenario beam of length 10 with supports at 2 and 8 (in
list order) and downward loads 50 at 1, 30 at 6 and 40 at 9, the solver
returns `R1 = 185/3` at the support at 2 and `R2 = 175/3` at the support
at 8, and these satisfy `R1 + R2 = 120`, `R2 * 6 = 350` and
`R1 = 120 - R2` exactly. -/
theorem reactions_scenario_C1 :
    analyzeReactions [⟨2, "pin"⟩, ⟨8, "roller"⟩]
        [⟨"concentrated", 1, 50⟩, ⟨"concentrated", 6, 30⟩, ⟨"concentrated", 9, 40⟩]
      = some (JSNum.fin (185 / 3), JSNum.fin (175 / 3))
    ∧ (185 : ℚ) / 3 + 175 / 3 = 120
    ∧ (175 : ℚ) / 3 * 6 = 350
    ∧ (185 : ℚ) / 3 = 120 - 175 / 3 := by
  refine ⟨?_, by norm_num, by norm_num, by norm_num⟩
  norm_num [analyzeReactions, solveReactions, totalConcentrated, momentAbout, qDivJS, numSub]

/-- C2.  For two supports at distinct positions and any all-concentrated
load list, the two reactions are finite and sum exactly to the total
applied load magnitude (global vertical equilibrium). -/
theorem reactions_sum_loads_C2 (s1 s2 : JSupport) (loads : List JLoad)
    (hne : s1.position ≠ s2.position)
    (hl : ∀ l ∈ loads, l.ltype = "concentrated") :
    ∃ r1 r2 : ℚ, solveReactions s1 s2 loads = (JSNum.fin r1, JSNum.fin r2)
      ∧ r1 + r2 = (loads.map JLoad.magnitude).sum := by
  have hL : s2.position - s1.position ≠ 0 := sub_ne_zero.mpr (Ne.symm hne)
  refine ⟨totalConcentrated loads
      - momentAbout loads s1.position / (s2.position - s1.position),
    momentAbout loads s1.position / (s2.position - s1.position), ?_, ?_⟩
  · simp only [solveReactions, qDivJS, if_neg hL]
    rfl
  · rw [← totalConcentrated_eq_sum loads hl]
    ring

/-- Witness for C2 at the default configuration. -/
theorem reactions_sum_loads_C2_witness :
    ((2 : ℚ) ≠ 8)
    ∧ ∃ r1 r2 : ℚ,
        solveReactions ⟨2, "pin"⟩ ⟨8, "roller"⟩ [⟨"concentrated", 5, 50⟩]
          = (JSNum.fin r1, JSNum.fin r2)
        ∧ r1 + r2 = ([(⟨"concentrated", 5, 50⟩ : JLoad)].map JLoad.magnitude).sum :=
  ⟨by norm_num,
    reactions_sum_loads_C2 ⟨2, "pin"⟩ ⟨8, "roller"⟩ [⟨"concentrated", 5, 50⟩]
      (by norm_num) (by decide)⟩

/-- C3 (code bug).  The claim states `moment[i] = moment[i-1] +
(shear[i-1] + shear[i]) / 2 * dx` with `moment[0] = 0`.  The code instead
stores every sample's shear and moment as `toFixed(2)` strings; at the
second sample the update `(data[i-1]?.moment || 0) + (prevShear + shear)
* dx / 2` string-concatenates, and `moment.toFixed(2)` on the resulting
string throws a `TypeError`: on the component's default configuration
(beam 10, supports at 2 and 8, load 50 at 5) the analysis aborts and no
moment sequence satisfying the recurrence is produced, whatever
`Math.PI` and `Math.sin` return. -/
theorem moment_recurrence_typeerror_C3 (piV : ℚ) (sinFn : ℚ → ℚ) :
    jsAnalyze piV sinFn 10 [⟨2, "pin"⟩, ⟨8, "roller"⟩] [⟨"concentrated", 5, 50⟩]
      = .error JSErr.typeError :=
  jsAnalyze_crashes piV sinFn 10 ⟨2, "pin"⟩ ⟨8, "roller"⟩ [] [⟨"concentrated", 5, 50⟩]

/-- C4 (spec-modelled).  For a distributed load `d` and a sample `x`
beyond its start, the swept contribution equals the exact integral of the
linear intensity over `[start_pos, min(x, end_pos)]`; once `x` passes
`end_pos` it equals the full lumped resultant `(w1 + w2)/2 * L`; and the
shear field includes it subtractively, so the load switches on gradually
rather than as a point resultant. -/
theorem distributed_gradual_shear_C4 (d : VLoad) (x : ℚ)
    (hse : d.startPos < d.endPos) (hx : d.startPos < x) :
    sweptResultant d x = linearIntegral d d.startPos (min x d.endPos)
    ∧ (d.endPos ≤ x →
        sweptResultant d x
          = (d.startIntensity + d.endIntensity) / 2 * (d.endPos - d.startPos))
    ∧ ∀ (reactions pointLoads : List (ℚ × ℚ)) (pre post : List VLoad),
        specShearAt reactions pointLoads (pre ++ d :: post) x
          = specShearAt reactions pointLoads (pre ++ post) x - sweptResultant d x := by
  have hL : d.endPos - d.startPos ≠ 0 := sub_ne_zero.mpr (ne_of_gt hse)
  have hnx : ¬ x ≤ d.startPos := not_le.mpr hx
  refine ⟨?_, ?_, ?_⟩
  · simp only [sweptResultant, linearIntegral, intensityAt, if_neg hnx]
    field_simp
    ring
  · intro hex
    simp only [sweptResultant, intensityAt, if_neg hnx, min_eq_right hex]
    field_simp
  · intro reactions pointLoads pre post
    simp only [specShearAt, List.map_append, List.sum_append, List.map_cons, List.sum_cons]
    ring

/-- Witness for C4 at the spec's triangular-load example (0 to 20 over
[0, 4]) sampled at x = 2. -/
theorem distributed_gradual_shear_C4_witness :
    ((0 : ℚ) < 4) ∧ ((0 : ℚ) < 2)
    ∧ sweptResultant ⟨0, 4, 0, 20⟩ 2 = linearIntegral ⟨0, 4, 0, 20⟩ 0 (min 2 4) :=
  ⟨by norm_num, by norm_num,
    (distributed_gradual_shear_C4 ⟨0, 4, 0, 20⟩ 2 (by norm_num) (by norm_num)).1⟩

/-- C5 (counterexample).  The claim states that two supports at identical
positions make the solver fail with `DegenerateSupportError` and never
divide by the zero span.  The code has no such error path: with both
supports at 5 and a 50 load at 3 it divides `-100` by the zero span and
returns the numeric pair `(Infinity, -Infinity)`. -/
theorem degenerate_support_counterexample_C5 :
    solveReactions ⟨5, "pin"⟩ ⟨5, "roller"⟩ [⟨"concentrated", 3, 50⟩]
      = (JSNum.inf, JSNum.ninf) := by
  norm_num [solveReactions, totalConcentrated, momentAbout, qDivJS, numSub]

/-- C5 (amended).  Whenever the two supports coincide, the solver
performs the division by the zero span and returns a non-finite `R2`
(`Infinity`, `-Infinity` or `NaN`); no error is raised. -/
theorem degenerate_support_amended_C5 (s1 s2 : JSupport) (loads : List JLoad)
    (h : s1.position = s2.position) :
    (solveReactions s1 s2 loads).2 = JSNum.inf
    ∨ (solveReactions s1 s2 loads).2 = JSNum.ninf
    ∨ (solveReactions s1 s2 loads).2 = JSNum.nan := by
  have h2 : (solveReactions s1 s2 loads).2
      = qDivJS (momentAbout loads s1.position) (s2.position - s1.position) := rfl
  have hL : s2.position - s1.position = 0 := by rw [h]; ring
  rw [h2, hL]
  unfold qDivJS
  rw [if_pos rfl]
  rcases lt_trichotomy 0 (momentAbout loads s1.position) with hm | hm | hm
  · left
    rw [if_pos hm]
  · right; right
    rw [← hm]
    norm_num
  · right; left
    rw [if_neg (asymm hm), if_pos hm]

/-- Witness for C5 (amended) at two supports both at 4 and no loads. -/
theorem degenerate_support_amended_C5_witness :
    ((4 : ℚ) = 4)
    ∧ ((solveReactions ⟨4, "pin"⟩ ⟨4, "roller"⟩ []).2 = JSNum.inf
      ∨ (solveReactions ⟨4, "pin"⟩ ⟨4, "roller"⟩ []).2 = JSNum.ninf
      ∨ (solveReactions ⟨4, "pin"⟩ ⟨4, "roller"⟩ []).2 = JSNum.nan) :=
  ⟨rfl, degenerate_support_amended_C5 ⟨4, "pin"⟩ ⟨4, "roller"⟩ [] rfl⟩

/-- C6.  For a properly closed all-concentrated load set (both supports
and every load inside `[0, beamLength]`, support positions distinct), the
shear superposition of lines 284-303 evaluates to exactly 0 at the last
sample `x = 99 * dx = beamLength`. -/
theorem shear_zero_last_sample_C6 (bl : ℚ) (s1 s2 : JSupport) (loads : List JLoad)
    (hne : s1.position ≠ s2.position)
    (h1a : 0 ≤ s1.position) (h1b : s1.position ≤ bl)
    (h2a : 0 ≤ s2.position) (h2b : s2.position ≤ bl)
    (hl : ∀ l ∈ loads, l.ltype = "concentrated" ∧ 0 ≤ l.position ∧ l.position ≤ bl) :
    shearAt s1 s2 loads (solveReactions s1 s2 loads).1 (solveReactions s1 s2 loads).2
      (sampleX bl 99) = JSNum.fin 0 := by
  have hx : sampleX bl 99 = bl := by
    unfold sampleX dxOf numPoints
    push_cast
    ring
  have hL : s2.position - s1.position ≠ 0 := sub_ne_zero.mpr (Ne.symm hne)
  have hR2 : (solveReactions s1 s2 loads).2
      = JSNum.fin (momentAbout loads s1.position / (s2.position - s1.position)) := by
    show qDivJS (momentAbout loads s1.position) (s2.position - s1.position) = _
    unfold qDivJS
    rw [if_neg hL]
  have hR1 : (solveReactions s1 s2 loads).1
      = JSNum.fin (totalConcentrated loads
          - momentAbout loads s1.position / (s2.position - s1.position)) := by
    show numSub (JSNum.fin (totalConcentrated loads))
        (qDivJS (momentAbout loads s1.position) (s2.position - s1.position)) = _
    unfold qDivJS
    rw [if_neg hL]
    rfl
  rw [hx, hR1, hR2]
  unfold shearAt
  rw [if_pos h1b]
  show (if s2.position ≤ bl then
      numAdd (List.foldl _ (numAdd (JSNum.fin 0) _) loads) _ else _) = _
  rw [if_pos h2b]
  have hstep : numAdd (JSNum.fin 0)
      (JSNum.fin (totalConcentrated loads
        - momentAbout loads s1.position / (s2.position - s1.position)))
      = JSNum.fin (0 + (totalConcentrated loads
        - momentAbout loads s1.position / (s2.position - s1.position))) := rfl
  rw [hstep,
    shear_foldl_fin bl loads (fun l hl2 => ⟨(hl l hl2).1, (hl l hl2).2.2⟩) _,
    totalConcentrated_eq_sum loads (fun l hl2 => (hl l hl2).1)]
  show JSNum.fin _ = _
  congr 1
  ring

/-- Witness for C6 at the scenario configuration. -/
theorem shear_zero_last_sample_C6_witness :
    ((2 : ℚ) ≠ 8)
    ∧ shearAt ⟨2, "pin"⟩ ⟨8, "roller"⟩
        [⟨"concentrated", 1, 50⟩, ⟨"concentrated", 6, 30⟩, ⟨"concentrated", 9, 40⟩]
        (solveReactions ⟨2, "pin"⟩ ⟨8, "roller"⟩
          [⟨"concentrated", 1, 50⟩, ⟨"concentrated", 6, 30⟩, ⟨"concentrated", 9, 40⟩]).1
        (solveReactions ⟨2, "pin"⟩ ⟨8, "roller"⟩
          [⟨"concentrated", 1, 50⟩, ⟨"concentrated", 6, 30⟩, ⟨"concentrated", 9, 40⟩]).2
        (sampleX 10 99) = JSNum.fin 0 :=
  ⟨by norm_num,
    shear_zero_last_sample_C6 10 ⟨2, "pin"⟩ ⟨8, "roller"⟩
      [⟨"concentrated", 1, 50⟩, ⟨"concentrated", 6, 30⟩, ⟨"concentrated", 9, 40⟩]
      (by norm_num) (by norm_num) (by norm_num) (by norm_num) (by norm_num) (by decide)⟩

/-- C7 (code bug).  The claim states that the computed bending moment is 0
at both beam ends.  The code throws a `TypeError` at the second sample
(the moment update turns into string concatenation and `toFixed` is
called on a string), so on the scenario input no moment sequence - and in
particular no end value - is ever produced, whatever `Math.PI` and
`Math.sin` return. -/
theorem end_moment_typeerror_C7 (piV : ℚ) (sinFn : ℚ → ℚ) :
    jsAnalyze piV sinFn 10 [⟨2, "pin"⟩, ⟨8, "roller"⟩]
        [⟨"concentrated", 1, 50⟩, ⟨"concentrated", 6, 30⟩, ⟨"concentrated", 9, 40⟩]
      = .error JSErr.typeError :=
  jsAnalyze_crashes piV sinFn 10 ⟨2, "pin"⟩ ⟨8, "roller"⟩ []
    [⟨"concentrated", 1, 50⟩, ⟨"concentrated", 6, 30⟩, ⟨"concentrated", 9, 40⟩]

/-- C8.  The deflection estimator of line 316 applied to a finite moment
value is exactly the sine shape of the spec note: `sin(pi * x / length)`
times the absolute moment times the constant `1/1000` - nothing else (no
elastic modulus, no moment of inertia, no double integration) enters. -/
theorem deflection_sine_scaled_C8 (piV : ℚ) (sinFn : ℚ → ℚ) (bl x m : ℚ)
    (hbl : bl ≠ 0) :
    deflectionExpr piV sinFn bl x (.n (.fin m))
      = JSNum.fin (specSineDeflection piV sinFn bl x m) := by
  simp only [deflectionExpr, specSineDeflection, jsToNumber, sinJ, numMul, numDiv, numAbs,
    qDivJS, if_neg hbl]
  rw [if_neg (by norm_num : ¬ (1000 : ℚ) = 0)]
  congr 1
  rw [mul_one_div]

/-- Witness for C8 at a concrete beam and moment value. -/
theorem deflection_sine_scaled_C8_witness :
    ((10 : ℚ) ≠ 0)
    ∧ deflectionExpr 3 (fun t => t) 10 5 (.n (.fin (-2)))
        = JSNum.fin (specSineDeflection 3 (fun t => t) 10 5 (-2)) :=
  ⟨by norm_num, deflection_sine_scaled_C8 3 (fun t => t) 10 5 (-2) (by norm_num)⟩

/-- C9 (counterexample).  The claim states the validation layer rejects
every load whose position lies outside `[0, beamLength]`.  `addLoad`
checks a concentrated load only for `NaN` fields: a load at position 999
on a beam of length 10 is accepted. -/
theorem load_position_unchecked_C9 :
    addLoadAccepted (.concentrated (some 999) (some 50)) = true
    ∧ ¬ ((999 : ℚ) ≤ 10) := by
  exact ⟨rfl, by norm_num⟩

/-- C9 (amended).  What the validation layer does enforce: an accepted
support position is a number within `[0, beamLength]`; the analysis
request is sent only with at least two supports; an accepted distributed
or varying load has numeric fields with `startPos < endPos`.  Load
positions are never compared against the beam bounds. -/
theorem validation_boundary_amended_C9 (p : Option ℚ) (bl : ℚ) (ns nl : ℕ)
    (sp ep ip vsp vep vsi vei : Option ℚ)
    (hs : addSupportAccepted p bl = true)
    (hg : analyzeGate ns nl = true)
    (hd : addLoadAccepted (.distributed sp ep ip) = true)
    (hv : addLoadAccepted (.varying vsp vep vsi vei) = true) :
    (∃ q, p = some q ∧ 0 ≤ q ∧ q ≤ bl)
    ∧ 2 ≤ ns
    ∧ (∃ a b, sp = some a ∧ ep = some b ∧ a < b)
    ∧ (∃ a b, vsp = some a ∧ vep = some b ∧ a < b) := by
  refine ⟨?_, ?_, ?_, ?_⟩
  · cases p with
    | none => exact absurd hs (by simp [addSupportAccepted])
    | some q =>
        have hq := of_decide_eq_true hs
        exact ⟨q, rfl, hq.1, hq.2⟩
  · have := Bool.and_eq_true_iff.mp hg
    exact of_decide_eq_true this.1
  · cases sp with
    | none => exact absurd hd (by simp [addLoadAccepted])
    | some a =>
        cases ep with
        | none => exact absurd hd (by simp [addLoadAccepted])
        | some b =>
            cases ip with
            | none => exact absurd hd (by simp [addLoadAccepted])
            | some c => exact ⟨a, b, rfl, rfl, of_decide_eq_true hd⟩
  · cases vsp with
    | none => exact absurd hv (by simp [addLoadAccepted])
    | some a =>
        cases vep with
        | none => exact absurd hv (by simp [addLoadAccepted])
        | some b =>
            cases vsi with
            | none => exact absurd hv (by simp [addLoadAccepted])
            | some c =>
                cases vei with
                | none => exact absurd hv (by simp [addLoadAccepted])
                | some e => exact ⟨a, b, rfl, rfl, of_decide_eq_true hv⟩

/-- Witness for C9 (amended) at concrete accepted inputs. -/
theorem validation_boundary_amended_C9_witness :
    addSupportAccepted (some 3) 10 = true
    ∧ ((∃ q, (some (3 : ℚ)) = some q ∧ 0 ≤ q ∧ q ≤ 10)
      ∧ 2 ≤ 2
      ∧ (∃ a b, (some (1 : ℚ)) = some a ∧ (some (4 : ℚ)) = some b ∧ a < b)
      ∧ (∃ a b, (some (6 : ℚ)) = some a ∧ (some (9 : ℚ)) = some b ∧ a < b)) :=
  ⟨rfl,
    validation_boundary_amended_C9 (some 3) 10 2 1 (some 1) (some 4) (some 5)
      (some 6) (some 9) (some 15) (some 5) rfl rfl rfl rfl⟩

/-- C10.  The analysis depends only on the first two supports: both the
reaction step and the whole sampling computation give syntactically the
same result for any two support lists sharing their first two entries,
for every beam length, load list and `Math` environment; the extra
supports contribute no reaction and no shear term. -/
theorem first_two_supports_determine_C10 (piV : ℚ) (sinFn : ℚ → ℚ) (bl : ℚ)
    (s1 s2 : JSupport) (restA restB : List JSupport) (loads : List JLoad) :
    analyzeReactions (s1 :: s2 :: restA) loads = analyzeReactions (s1 :: s2 :: restB) loads
    ∧ jsAnalyze piV sinFn bl (s1 :: s2 :: restA) loads
        = jsAnalyze piV sinFn bl (s1 :: s2 :: restB) loads :=
  ⟨rfl, rfl⟩
